import Mathlib

/-!
Verification of the Flask-PyMongo article service.

The repository exposes four routes over an `articles` Mongo collection
(src/src/application.py):

  POST   /articles                     → ArticleController.create_article
  GET    /articles                     → ArticleController.get_articles
  GET    /articles/<uuid:article_id>   → ArticleController.get_article
  DELETE /articles/<uuid:article_id>   → ArticleController.delete_article

`create_article` (src/src/controllers/article_controller.py) parses the JSON
body, calls `insert_one` on the collection, stringifies the store-assigned
`_id` in the local dict and returns it with status 201.  The other three
handlers have the body `...` — they return `None`, which Flask turns into a
500 Internal Server Error response.

We embed the request/response cycle as pure functions over an explicit store
state.  The PyMongo collection (external collaborator; the repository's
`src/database.py` glue merely holds the `PyMongo()` handle) is modelled by a
list of documents plus an insertion counter: `insert_one` on a document
lacking `_id` adds a fresh BSON ObjectId, which we abstract as an injective
24-hex-character encoding of the counter (a real ObjectId is 12 bytes
rendered as 24 hex characters; duplicate-`_id` rejection for client-supplied
`_id` values is not modelled and no theorem below exercises it).
Werkzeug's `uuid` route converter accepts exactly the segments matching
`[A-Fa-f0-9]{8}-(hex4)-(hex4)-(hex4)-(hex12)`; any other segment matches no
route and yields the routing 404 response.
-/

/-- JSON/BSON values as stored and returned by the service.  `oid n` is the
BSON ObjectId generated for the `n`-th insertion of the process, abstracting
PyMongo's ObjectId generation. -/
inductive Json where
  | null
  | bool (b : Bool)
  | num (n : Int)
  | str (s : String)
  | arr (xs : List Json)
  | obj (fields : List (String × Json))
  | oid (n : Nat)

/-- A Mongo document / parsed JSON object body: an association list of
fields, first match wins on lookup (Python dicts have unique keys, so the
order-sensitive cases never arise from real requests). -/
abbrev Doc := List (String × Json)

/-- Python dict lookup `d[k]` (as an `Option`). -/
def getVal : Doc → String → Option Json
  | [], _ => none
  | (k, v) :: rest, key => if k = key then some v else getVal rest key

/-- Python membership test `k in d`. -/
def hasKey (d : Doc) (k : String) : Bool :=
  (getVal d k).isSome

/-- Python dict assignment `d[k] = v`: replaces the value in place when the
key is present, otherwise appends the new binding at the end. -/
def setKey (d : Doc) (k : String) (v : Json) : Doc :=
  if hasKey d k then d.map (fun p => if p.1 = k then (k, v) else p)
  else d ++ [(k, v)]

/-- Hexadecimal digit characters `0`-`9`, `a`-`f` (for digit values < 16). -/
def hexDigit (n : Nat) : Char :=
  if n < 10 then Char.ofNat (48 + n) else Char.ofNat (87 + n)

/-- `w` base-16 digits of `n`, least significant first. -/
def hexDigitsLE : Nat → Nat → List Char
  | 0, _ => []
  | w + 1, n => hexDigit (n % 16) :: hexDigitsLE w (n / 16)

/-- The 24-hex-character string rendering of the ObjectId generated at
insertion counter `n` — the value of Python `str(ObjectId(...))`. -/
def oidString (n : Nat) : String :=
  String.mk (hexDigitsLE 24 n)

mutual

/-- Python `str(...)` as applied by the controller to `data["_id"]`.  The
controller only ever applies it to an ObjectId or to a client-supplied
scalar `_id`; the container cases render the elements recursively. -/
def pyStr : Json → String
  | .null => "None"
  | .bool true => "True"
  | .bool false => "False"
  | .num n => toString n
  | .str s => s
  | .oid n => oidString n
  | .arr xs => "[" ++ pyStrList xs ++ "]"
  | .obj fs => "\x7b" ++ pyStrFields fs ++ "\x7d"

def pyStrList : List Json → String
  | [] => ""
  | [x] => pyStr x
  | x :: y :: xs => pyStr x ++ ", " ++ pyStrList (y :: xs)

def pyStrFields : List (String × Json) → String
  | [] => ""
  | [(k, v)] => k ++ ": " ++ pyStr v
  | (k, v) :: p :: fs => k ++ ": " ++ pyStr v ++ ", " ++ pyStrFields (p :: fs)

end

/-- The state of the `articles` Mongo collection: the stored documents plus
the process ObjectId insertion counter. -/
structure MongoState where
  articles : List Doc
  counter : Nat

/-- PyMongo `collection.insert_one(doc)` (success path): if the document has
no `_id` field a fresh ObjectId is generated and added to the document (the
caller's dict is mutated too — the returned `Doc` is that mutated dict);
the document is then appended to the collection. -/
def insert_one (st : MongoState) (doc : Doc) : Doc × MongoState :=
  if hasKey doc "_id" then
    (doc, { st with articles := st.articles ++ [doc] })
  else
    let doc' := doc ++ [("_id", Json.oid st.counter)]
    (doc', { articles := st.articles ++ [doc'], counter := st.counter + 1 })

/-- `ArticleController.create_article`:
`data = request.get_json(force=True)`; `insert_one(data)`;
`data["_id"] = str(data["_id"])`; `return jsonify(data), 201`.
The result is `some (body, status)` for a normal return; `none` models an
exception escaping the view (a non-dict JSON body makes `insert_one` raise
TypeError), which Flask also turns into a 500 response. -/
def create_article (st : MongoState) (body : Json) : Option (Json × Nat) × MongoState :=
  match body with
  | .obj data =>
    let r := insert_one st data
    let idVal := (getVal r.1 "_id").getD Json.null
    let data' := setKey r.1 "_id" (Json.str (pyStr idVal))
    (some (Json.obj data', 201), r.2)
  | _ => (none, st)

/-- `ArticleController.get_article`: the body is the bare expression `...`,
so the view function returns `None`. -/
def get_article (_st : MongoState) (_article_id : String) : Option (Json × Nat) :=
  none

/-- `ArticleController.get_articles`: the body is the bare expression `...`,
so the view function returns `None`. -/
def get_articles (_st : MongoState) : Option (Json × Nat) :=
  none

/-- `ArticleController.delete_article`: the body is the bare expression
`...`, so the view function returns `None`; the collection is not touched. -/
def delete_article (_st : MongoState) (_article_id : String) : Option (Json × Nat) :=
  none

/-- An HTTP response: status code, and the JSON body when the view produced
one (`none` for Flask's own error pages). -/
structure Response where
  status : Nat
  body : Option Json

/-- Flask's handling of a view result: a returned `(json, status)` pair
becomes that response; a view returning `None` (or raising) becomes a
500 Internal Server Error. -/
def viewToResponse : Option (Json × Nat) → Response
  | some (j, s) => { status := s, body := some j }
  | none => { status := 500, body := none }

/-- Werkzeug hex-character class `[A-Fa-f0-9]`. -/
def isHexChar (c : Char) : Bool :=
  ('0' ≤ c && c ≤ '9') || ('a' ≤ c && c ≤ 'f') || ('A' ≤ c && c ≤ 'F')

/-- Werkzeug's `uuid` route converter: the path segment matches
`[A-Fa-f0-9]{8}-[A-Fa-f0-9]{4}-[A-Fa-f0-9]{4}-[A-Fa-f0-9]{4}-[A-Fa-f0-9]{12}`
— 36 characters, hyphens exactly at positions 8, 13, 18, 23, hex digits
elsewhere. -/
def isUuidString (s : String) : Bool :=
  let cs := s.data
  (cs.length == 36) &&
    ((List.range 36).all fun i =>
      if i == 8 || i == 13 || i == 18 || i == 23 then cs.getD i ' ' == '-'
      else isHexChar (cs.getD i ' '))

/-- HTTP request methods used by the registered routes. -/
inductive Method where
  | GET
  | POST
  | DELETE

/-- The routing 404 response Werkzeug produces when no registered rule
matches the request path. -/
def routeNotFound : Response :=
  { status := 404, body := none }

/-- The application's request dispatch (`create_app` in
src/src/application.py): the four registered rules, with the `uuid`
converter guarding the single-article rules; any other path (or a
single-article path whose segment is not UUID-shaped) matches no rule and
gets the routing 404 without any handler or store call. -/
def handle (st : MongoState) (m : Method) (path : List String) (body : Json) :
    Response × MongoState :=
  match m, path with
  | .POST, ["articles"] =>
    let r := create_article st body
    (viewToResponse r.1, r.2)
  | .GET, ["articles"] => (viewToResponse (get_articles st), st)
  | .GET, ["articles", seg] =>
    if isUuidString seg then (viewToResponse (get_article st seg), st)
    else (routeNotFound, st)
  | .DELETE, ["articles", seg] =>
    if isUuidString seg then (viewToResponse (delete_article st seg), st)
    else (routeNotFound, st)
  | _, _ => (routeNotFound, st)

/-- The collection state at application start: empty collection, ObjectId
counter at zero. -/
def emptyState : MongoState :=
  { articles := [], counter := 0 }

/-- The spec's example Create body:
`{"author":"Mr Stark","content":"This is a short dummy article","tags":["test"]}`. -/
def exampleBody : Doc :=
  [("author", Json.str "Mr Stark"),
   ("content", Json.str "This is a short dummy article"),
   ("tags", Json.arr [Json.str "test"])]

/-- A Create body with an empty `author` field. -/
def emptyAuthorBody : Doc :=
  [("author", Json.str ""), ("content", Json.str "This is a short dummy article")]

/-- A syntactically valid UUID string never issued by the service. -/
def sampleUuid : String :=
  "123e4567-e89b-12d3-a456-426614174000"

/-- The `_id` string of a response body, when the response carries a JSON
object with that field. -/
def respId (r : Response) : Option Json :=
  match r.body with
  | some (Json.obj fields) => getVal fields "_id"
  | _ => none

/-- Whether the response body is a JSON object carrying field `k`. -/
def respHasKey (r : Response) (k : String) : Bool :=
  match r.body with
  | some (Json.obj fields) => hasKey fields k
  | _ => false

/-- A sequence of Create requests, threaded through the store state. -/
def createSeq : MongoState → List Doc → List Response × MongoState
  | st, [] => ([], st)
  | st, d :: ds =>
    let r := handle st .POST ["articles"] (Json.obj d)
    let rest := createSeq r.2 ds
    (r.1 :: rest.1, rest.2)

/-- The multiset of `_id` bindings of a stored document. -/
def docIds (d : Doc) : List Json :=
  d.filterMap fun p => if p.1 = "_id" then some p.2 else none

/-- Store sanity invariant: every stored document carries exactly one `_id`,
an ObjectId issued before the current counter, and no two documents share
one. -/
def uniqueIds (st : MongoState) : Prop :=
  (∀ d ∈ st.articles, ∃ k, k < st.counter ∧ docIds d = [Json.oid k]) ∧
    (st.articles.map docIds).Nodup

/-! ### Lemmas about document field operations -/

theorem getVal_append_left {d : Doc} {k : String} {v : Json} (e : Doc)
    (h : getVal d k = some v) : getVal (d ++ e) k = some v := by
  induction d with
  | nil => simp [getVal] at h
  | cons p rest ih =>
    obtain ⟨k', v'⟩ := p
    by_cases hk : k' = k
    · simpa [getVal, hk] using h
    · rw [List.cons_append, getVal, if_neg hk]
      rw [getVal, if_neg hk] at h
      exact ih h

theorem getVal_append_right {d : Doc} {k : String} (e : Doc)
    (h : hasKey d k = false) : getVal (d ++ e) k = getVal e k := by
  induction d with
  | nil => rfl
  | cons p rest ih =>
    obtain ⟨k', v'⟩ := p
    by_cases hk : k' = k
    · exfalso
      rw [hasKey, getVal, if_pos hk] at h
      simp at h
    · rw [hasKey, getVal, if_neg hk] at h
      rw [List.cons_append, getVal, if_neg hk]
      exact ih h

theorem hasKey_eq_false_iff {d : Doc} {k : String} :
    hasKey d k = false ↔ ∀ p ∈ d, ¬ p.1 = k := by
  induction d with
  | nil => simp [hasKey, getVal]
  | cons p rest ih =>
    obtain ⟨k', v'⟩ := p
    by_cases hk : k' = k
    · simp [hasKey, getVal, hk]
    · simp only [hasKey, getVal, if_neg hk, List.mem_cons]
      rw [← hasKey]
      constructor
      · intro h q hq
        rcases hq with hq | hq
        · subst hq; exact hk
        · exact ih.1 h q hq
      · intro h
        exact ih.2 fun q hq => h q (Or.inr hq)

theorem map_set_id {d : Doc} {k : String} (w : Json)
    (h : hasKey d k = false) :
    d.map (fun p => if p.1 = k then (k, w) else p) = d := by
  induction d with
  | nil => rfl
  | cons p rest ih =>
    obtain ⟨k', v'⟩ := p
    have hk : ¬ k' = k := (hasKey_eq_false_iff.1 h) (k', v') (by simp)
    have hrest : hasKey rest k = false :=
      hasKey_eq_false_iff.2 fun q hq => (hasKey_eq_false_iff.1 h) q (by simp [hq])
    simp only [List.map_cons, if_neg hk, ih hrest]

theorem setKey_append_single {d : Doc} {k : String} (v w : Json)
    (h : hasKey d k = false) :
    setKey (d ++ [(k, v)]) k w = d ++ [(k, w)] := by
  have h1 : hasKey (d ++ [(k, v)]) k = true := by
    rw [hasKey, getVal_append_right _ h]
    simp [getVal]
  rw [setKey, if_pos h1, List.map_append, map_set_id w h]
  simp

theorem getVal_append_one_ne {d : Doc} {k k' : String} (v : Json) (h : ¬ k' = k) :
    getVal (d ++ [(k', v)]) k = getVal d k := by
  induction d with
  | nil => simp [getVal, h]
  | cons p rest ih =>
    obtain ⟨k'', v''⟩ := p
    by_cases hk : k'' = k
    · simp [getVal, hk]
    · rw [List.cons_append, getVal, if_neg hk, getVal, if_neg hk]
      exact ih

/-! ### Lemmas about ObjectId strings -/

theorem length_hexDigitsLE (w n : Nat) : (hexDigitsLE w n).length = w := by
  induction w generalizing n with
  | zero => rfl
  | succ w ih => simp [hexDigitsLE, ih]

theorem hexDigit_inj {a b : Nat} (ha : a < 16) (hb : b < 16)
    (h : hexDigit a = hexDigit b) : a = b := by
  have key : ∀ x y : Fin 16, hexDigit x.val = hexDigit y.val → x = y := by decide
  have := key ⟨a, ha⟩ ⟨b, hb⟩ h
  exact congrArg Fin.val this

theorem hexDigitsLE_inj {w n m : Nat} (hn : n < 16 ^ w) (hm : m < 16 ^ w)
    (h : hexDigitsLE w n = hexDigitsLE w m) : n = m := by
  induction w generalizing n m with
  | zero =>
    have : n = 0 := Nat.lt_one_iff.1 (by simpa using hn)
    have : m = 0 := Nat.lt_one_iff.1 (by simpa using hm)
    omega
  | succ w ih =>
    rw [hexDigitsLE, hexDigitsLE, List.cons.injEq] at h
    have h1 : n % 16 = m % 16 :=
      hexDigit_inj (Nat.mod_lt _ (by norm_num)) (Nat.mod_lt _ (by norm_num)) h.1
    have hn' : n / 16 < 16 ^ w := by
      rw [Nat.div_lt_iff_lt_mul (by norm_num : 0 < 16)]
      calc n < 16 ^ (w + 1) := hn
        _ = 16 ^ w * 16 := pow_succ 16 w
    have hm' : m / 16 < 16 ^ w := by
      rw [Nat.div_lt_iff_lt_mul (by norm_num : 0 < 16)]
      calc m < 16 ^ (w + 1) := hm
        _ = 16 ^ w * 16 := pow_succ 16 w
    have h2 : n / 16 = m / 16 := ih hn' hm' h.2
    omega

theorem oidString_inj {n m : Nat} (hn : n < 16 ^ 24) (hm : m < 16 ^ 24)
    (h : oidString n = oidString m) : n = m := by
  rw [oidString, oidString] at h
  exact hexDigitsLE_inj hn hm (congrArg String.data h)

theorem oidString_not_uuid (n : Nat) : isUuidString (oidString n) = false := by
  have hl : (oidString n).data.length = 24 := by
    rw [oidString]
    exact length_hexDigitsLE 24 n
  rw [isUuidString]
  simp only [hl]
  rfl

/-! ### Characterization of the Create path -/

theorem create_noid {d : Doc} (st : MongoState) (h : hasKey d "_id" = false) :
    create_article st (Json.obj d) =
      (some (Json.obj (d ++ [("_id", Json.str (oidString st.counter))]), 201),
       { articles := st.articles ++ [d ++ [("_id", Json.oid st.counter)]],
         counter := st.counter + 1 }) := by
  rw [create_article, insert_one]
  simp only [h, Bool.false_eq_true, if_false]
  have hid : getVal (d ++ [("_id", Json.oid st.counter)]) "_id" = some (Json.oid st.counter) := by
    rw [getVal_append_right _ h]
    simp [getVal]
  simp only [hid, Option.getD_some]
  rw [setKey_append_single _ _ h]
  rfl

theorem handle_post (st : MongoState) (b : Json) :
    handle st .POST ["articles"] b =
      (viewToResponse (create_article st b).1, (create_article st b).2) := rfl

theorem handle_post_noid {d : Doc} (st : MongoState) (h : hasKey d "_id" = false) :
    handle st .POST ["articles"] (Json.obj d) =
      ({ status := 201,
         body := some (Json.obj (d ++ [("_id", Json.str (oidString st.counter))])) },
       { articles := st.articles ++ [d ++ [("_id", Json.oid st.counter)]],
         counter := st.counter + 1 }) := by
  rw [handle_post, create_noid st h]
  rfl

/-! ### Lemmas about stored identifiers -/

theorem docIds_append (d e : Doc) : docIds (d ++ e) = docIds d ++ docIds e := by
  simp [docIds]

theorem docIds_eq_nil {d : Doc} (h : hasKey d "_id" = false) : docIds d = [] := by
  induction d with
  | nil => rfl
  | cons p rest ih =>
    obtain ⟨k, v⟩ := p
    have hk : ¬ k = "_id" := (hasKey_eq_false_iff.1 h) (k, v) (by simp)
    have hrest : hasKey rest "_id" = false :=
      hasKey_eq_false_iff.2 fun q hq => (hasKey_eq_false_iff.1 h) q (by simp [hq])
    simp [docIds, List.filterMap_cons, hk] at ih ⊢
    exact ih hrest

theorem uniqueIds_insert {st : MongoState} {d : Doc} (hwf : uniqueIds st)
    (h : hasKey d "_id" = false) :
    uniqueIds { articles := st.articles ++ [d ++ [("_id", Json.oid st.counter)]],
                counter := st.counter + 1 } := by
  obtain ⟨h1, h2⟩ := hwf
  have hnew : docIds (d ++ [("_id", Json.oid st.counter)]) = [Json.oid st.counter] := by
    rw [docIds_append, docIds_eq_nil h]
    rfl
  constructor
  · intro d' hd'
    rcases List.mem_append.1 hd' with hmem | hmem
    · obtain ⟨k, hk, hids⟩ := h1 d' hmem
      exact ⟨k, Nat.lt_succ_of_lt hk, hids⟩
    · have : d' = d ++ [("_id", Json.oid st.counter)] := by simpa using hmem
      subst this
      exact ⟨st.counter, Nat.lt_succ_self _, hnew⟩
  · rw [List.map_append]
    refine List.Nodup.append h2 (by simp) ?_
    intro x hx hx'
    simp only [List.map_cons, List.map_nil, List.mem_singleton, hnew] at hx'
    obtain ⟨d', hd', hx⟩ := List.mem_map.1 hx
    obtain ⟨k, hk, hids⟩ := h1 d' hd'
    rw [← hx, hids] at hx'
    have : k = st.counter := by
      have := List.cons.injEq (Json.oid k) [] (Json.oid st.counter) [] ▸ hx'
      injection (List.cons.inj hx').1
    omega

/-- The `_id` values a run of Creates starting at counter `c` hands out:
`k` consecutive stringified ObjectIds. -/
def expectedIds : Nat → Nat → List (Option Json)
  | _, 0 => []
  | c, k + 1 => some (Json.str (oidString c)) :: expectedIds (c + 1) k

theorem mem_expectedIds {x : Option Json} {c k : Nat} :
    x ∈ expectedIds c k ↔ ∃ j, c ≤ j ∧ j < c + k ∧ x = some (Json.str (oidString j)) := by
  induction k generalizing c with
  | zero =>
    simp only [expectedIds, List.not_mem_nil, false_iff]
    rintro ⟨j, hj1, hj2, _⟩
    omega
  | succ k ih =>
    simp only [expectedIds, List.mem_cons, ih]
    constructor
    · rintro (rfl | ⟨j, hj1, hj2, rfl⟩)
      · exact ⟨c, le_refl c, by omega, rfl⟩
      · exact ⟨j, by omega, by omega, rfl⟩
    · rintro ⟨j, hj1, hj2, rfl⟩
      by_cases hj : j = c
      · subst hj; exact Or.inl rfl
      · exact Or.inr ⟨j, by omega, by omega, rfl⟩

theorem expectedIds_nodup {c k : Nat} (h : c + k ≤ 16 ^ 24) :
    (expectedIds c k).Nodup := by
  induction k generalizing c with
  | zero => simp [expectedIds]
  | succ k ih =>
    rw [expectedIds]
    refine List.Nodup.cons ?_ (ih (by omega))
    intro hmem
    obtain ⟨j, hj1, hj2, hj3⟩ := mem_expectedIds.1 hmem
    have heq : oidString j = oidString c := by
      have h2 := Option.some.inj hj3
      injection h2 with h3
      exact h3.symm
    have : j = c := oidString_inj (by omega) (by omega) heq
    omega

theorem createSeq_noid (ds : List Doc) (st : MongoState)
    (h : ∀ d ∈ ds, hasKey d "_id" = false) :
    (createSeq st ds).1.map respId = expectedIds st.counter ds.length
    ∧ (∀ r ∈ (createSeq st ds).1, r.status = 201)
    ∧ (createSeq st ds).2.counter = st.counter + ds.length
    ∧ (uniqueIds st → uniqueIds (createSeq st ds).2) := by
  induction ds generalizing st with
  | nil => simp [createSeq, expectedIds]
  | cons d ds ih =>
    have hd : hasKey d "_id" = false := h d (by simp)
    have hds : ∀ d' ∈ ds, hasKey d' "_id" = false := fun d' hd' => h d' (by simp [hd'])
    have hstep := handle_post_noid st hd
    have hresp : respId (handle st .POST ["articles"] (Json.obj d)).1
        = some (Json.str (oidString st.counter)) := by
      rw [hstep, respId]
      simp only
      rw [getVal_append_right _ hd]
      simp [getVal]
    obtain ⟨ih1, ih2, ih3, ih4⟩ :=
      ih (handle st .POST ["articles"] (Json.obj d)).2 hds
    have hcnt : (handle st .POST ["articles"] (Json.obj d)).2.counter = st.counter + 1 := by
      rw [hstep]
    refine ⟨?_, ?_, ?_, ?_⟩
    · rw [createSeq]
      simp only [List.map_cons, List.length_cons, expectedIds, hresp]
      rw [ih1, hcnt]
    · rw [createSeq]
      intro r hr
      rcases List.mem_cons.1 hr with hr | hr
      · subst hr
        rw [hstep]
      · exact ih2 r hr
    · rw [createSeq]
      simp only
      rw [ih3, hcnt, List.length_cons]
      omega
    · intro hwf
      rw [createSeq]
      refine ih4 ?_
      have : (handle st .POST ["articles"] (Json.obj d)).2
          = { articles := st.articles ++ [d ++ [("_id", Json.oid st.counter)]],
              counter := st.counter + 1 } := by rw [hstep]
      rw [this]
      exact uniqueIds_insert hwf hd

/-! ### Claim C1 -/

/-- C1, as stated, is false: for the spec's example Create request the
response status is 201, but the body carries the stringified store key under
`_id` — there is no `id` field at all. -/
theorem C1_counterexample :
    (handle emptyState .POST ["articles"] (Json.obj exampleBody)).1.status = 201
    ∧ respHasKey (handle emptyState .POST ["articles"] (Json.obj exampleBody)).1 "id" = false
    ∧ respHasKey (handle emptyState .POST ["articles"] (Json.obj exampleBody)).1 "_id" = true := by
  decide

/-- C1 (amended): for every Create request whose JSON object body lacks
`_id` and has non-empty `author` and `content`, the operation persists the
document (with the store-assigned ObjectId) via the store, and returns 201
with a body consisting of the unchanged request fields plus an `_id` field
(not `id`) holding the stringified store key. -/
theorem C1_create_assigns_store_id (st : MongoState) (d : Doc) (a c : String)
    (hid : hasKey d "_id" = false)
    (ha : getVal d "author" = some (Json.str a)) (ha' : a ≠ "")
    (hc : getVal d "content" = some (Json.str c)) (hc' : c ≠ "") :
    (handle st .POST ["articles"] (Json.obj d)).1.status = 201
    ∧ (handle st .POST ["articles"] (Json.obj d)).1.body
        = some (Json.obj (d ++ [("_id", Json.str (oidString st.counter))]))
    ∧ getVal (d ++ [("_id", Json.str (oidString st.counter))]) "author" = some (Json.str a)
    ∧ getVal (d ++ [("_id", Json.str (oidString st.counter))]) "content" = some (Json.str c)
    ∧ getVal (d ++ [("_id", Json.str (oidString st.counter))]) "tags" = getVal d "tags"
    ∧ (handle st .POST ["articles"] (Json.obj d)).2.articles
        = st.articles ++ [d ++ [("_id", Json.oid st.counter)]] := by
  have hstep := handle_post_noid st hid
  exact ⟨by rw [hstep], by rw [hstep], getVal_append_left _ ha, getVal_append_left _ hc,
    getVal_append_one_ne _ (by decide),
    by rw [hstep]⟩

/-- C1 witness: the amended claim evaluated on the spec's example request. -/
theorem C1_witness :
    (handle emptyState .POST ["articles"] (Json.obj exampleBody)).1.status = 201
    ∧ (handle emptyState .POST ["articles"] (Json.obj exampleBody)).1.body
        = some (Json.obj (exampleBody ++ [("_id", Json.str (oidString 0))])) :=
  ⟨(C1_create_assigns_store_id emptyState exampleBody "Mr Stark"
      "This is a short dummy article" (by decide) rfl (by decide) rfl (by decide)).1,
   (C1_create_assigns_store_id emptyState exampleBody "Mr Stark"
      "This is a short dummy article" (by decide) rfl (by decide) rfl (by decide)).2.1⟩

/-! ### Claim C2 -/

/-- C2, as stated, is false: a Create request with empty `author` is
answered 201 (not 400) and the collection grows by one document. -/
theorem C2_counterexample :
    (handle emptyState .POST ["articles"] (Json.obj emptyAuthorBody)).1.status = 201
    ∧ (handle emptyState .POST ["articles"] (Json.obj emptyAuthorBody)).1.status ≠ 400
    ∧ (handle emptyState .POST ["articles"] (Json.obj emptyAuthorBody)).2.articles.length = 1 := by
  decide

/-- C2 (amended): the Create handler performs no validation: for every JSON
object body without `_id`, even one whose `author` or `content` is empty or
missing, it returns 201 and the collection grows by one document. -/
theorem C2_no_validation (st : MongoState) (d : Doc)
    (hid : hasKey d "_id" = false)
    (hbad : getVal d "author" = some (Json.str "") ∨ getVal d "author" = none
      ∨ getVal d "content" = some (Json.str "") ∨ getVal d "content" = none) :
    (handle st .POST ["articles"] (Json.obj d)).1.status = 201
    ∧ (handle st .POST ["articles"] (Json.obj d)).2.articles.length
        = st.articles.length + 1 := by
  have hstep := handle_post_noid st hid
  refine ⟨by rw [hstep], ?_⟩
  rw [hstep]
  simp

/-- C2 witness: the amended claim evaluated on the empty-author request. -/
theorem C2_witness :
    (handle emptyState .POST ["articles"] (Json.obj emptyAuthorBody)).1.status = 201
    ∧ (handle emptyState .POST ["articles"] (Json.obj emptyAuthorBody)).2.articles.length
        = emptyState.articles.length + 1 :=
  C2_no_validation emptyState emptyAuthorBody (by decide) (Or.inl rfl)

/-! ### Claim C3 -/

/-- C3, as stated, is false: the id returned by a successful Create is the
stringified store ObjectId, which is not a syntactically valid UUID
(24 hex characters, no hyphens). -/
theorem C3_counterexample :
    respId (handle emptyState .POST ["articles"] (Json.obj exampleBody)).1
      = some (Json.str (oidString 0))
    ∧ isUuidString (oidString 0) = false := by
  exact ⟨rfl, by decide⟩

/-- C3 (amended): for every sequence of successful Creates (object bodies
without `_id`) from a well-formed store whose ObjectId counter has not
exhausted the 12-byte space, the returned ids are the consecutive
stringified store ObjectIds — pairwise distinct but never syntactically
valid UUIDs — and afterwards every persisted Article still has exactly one
`_id`, unique across the collection. -/
theorem C3_ids_distinct (st : MongoState) (ds : List Doc)
    (hwf : uniqueIds st)
    (hno : ∀ d ∈ ds, hasKey d "_id" = false)
    (hbound : st.counter + ds.length ≤ 16 ^ 24) :
    (createSeq st ds).1.map respId = expectedIds st.counter ds.length
    ∧ ((createSeq st ds).1.map respId).Nodup
    ∧ (∀ x ∈ (createSeq st ds).1.map respId,
        ∃ j, x = some (Json.str (oidString j)) ∧ isUuidString (oidString j) = false)
    ∧ uniqueIds (createSeq st ds).2 := by
  obtain ⟨h1, _, _, h4⟩ := createSeq_noid ds st hno
  refine ⟨h1, ?_, ?_, h4 hwf⟩
  · rw [h1]
    exact expectedIds_nodup hbound
  · intro x hx
    rw [h1] at hx
    obtain ⟨j, _, _, rfl⟩ := mem_expectedIds.1 hx
    exact ⟨j, rfl, oidString_not_uuid j⟩

/-- C3 witness: two Creates of the example body from the empty store return
distinct ids. -/
theorem C3_witness :
    ((createSeq emptyState [exampleBody, exampleBody]).1.map respId).Nodup :=
  (C3_ids_distinct emptyState [exampleBody, exampleBody]
    ⟨fun d hd => absurd hd (List.not_mem_nil d), List.nodup_nil⟩
    (by decide) (by decide)).2.1

/-! ### Claim C4 -/

/-- C4, as stated, is false: creating the example Article and fetching it at
the returned id yields 404, not 200 — the returned `_id` is not UUID-shaped,
so the `<uuid:article_id>` rule does not even match. -/
theorem C4_counterexample :
    respId (handle emptyState .POST ["articles"] (Json.obj exampleBody)).1
      = some (Json.str (oidString 0))
    ∧ (handle (handle emptyState .POST ["articles"] (Json.obj exampleBody)).2
        .GET ["articles", oidString 0] Json.null).1.status = 404 := by
  exact ⟨rfl, by decide⟩

/-- C4 (amended): for every Create of an object body without `_id`, a
GetArticle at the id the Create returned is answered 404 by the router (the
stringified ObjectId is not UUID-shaped, so no rule matches) and the store
is not consulted. -/
theorem C4_roundtrip_404 (st : MongoState) (d : Doc) (b : Json)
    (hid : hasKey d "_id" = false) :
    respId (handle st .POST ["articles"] (Json.obj d)).1
      = some (Json.str (oidString st.counter))
    ∧ handle (handle st .POST ["articles"] (Json.obj d)).2
        .GET ["articles", oidString st.counter] b
      = (routeNotFound, (handle st .POST ["articles"] (Json.obj d)).2) := by
  have hstep := handle_post_noid st hid
  constructor
  · rw [hstep, respId]
    simp only
    rw [getVal_append_right _ hid]
    simp [getVal]
  · simp only [handle, oidString_not_uuid, Bool.false_eq_true, if_false]

/-- C4 witness: the amended claim evaluated on the spec's example request. -/
theorem C4_witness :
    handle (handle emptyState .POST ["articles"] (Json.obj exampleBody)).2
        .GET ["articles", oidString 0] Json.null
      = (routeNotFound, (handle emptyState .POST ["articles"] (Json.obj exampleBody)).2) :=
  (C4_roundtrip_404 emptyState exampleBody Json.null (by decide)).2

/-! ### Claim C5 -/

/-- C5, as stated, is false: a GET for a valid UUID that was never created
is answered 500 (the handler is an unimplemented stub), not 404. -/
theorem C5_counterexample :
    (handle emptyState .GET ["articles", sampleUuid] Json.null).1.status = 500
    ∧ (handle emptyState .GET ["articles", sampleUuid] Json.null).1.status ≠ 404
    ∧ (handle emptyState .GET ["articles", sampleUuid] Json.null).1.status ≠ 200 := by
  decide

/-- C5 (amended): for every well-formed UUID path parameter, GetArticle
returns 500 with no body (the handler returns `None`), whether or not a
matching document exists, and the store state is unchanged. -/
theorem C5_get_always_500 (st : MongoState) (seg : String) (b : Json)
    (h : isUuidString seg = true) :
    handle st .GET ["articles", seg] b = ({ status := 500, body := none }, st) := by
  simp only [handle, h, if_true]
  rfl

/-- C5 witness: the amended claim evaluated at a concrete never-issued
UUID over the empty store. -/
theorem C5_witness :
    handle emptyState .GET ["articles", sampleUuid] Json.null
      = ({ status := 500, body := none }, emptyState) :=
  C5_get_always_500 emptyState sampleUuid Json.null (by decide)

/-! ### Claim C6 -/

/-- C6, as stated, is false: `GET /articles/not-a-uuid` is answered 404 (the
`<uuid:...>` rule does not match, so routing fails), not 400. -/
theorem C6_counterexample :
    (handle emptyState .GET ["articles", "not-a-uuid"] Json.null).1.status = 404
    ∧ (handle emptyState .GET ["articles", "not-a-uuid"] Json.null).1.status ≠ 400 := by
  decide

/-- C6 (amended): for every path parameter that is not a well-formed UUID,
GetArticle and DeleteArticle fail before any handler or store call — but
with the routing 404, not 400: the request matches no rule, and the store
state is untouched. -/
theorem C6_bad_uuid_is_404 (st : MongoState) (seg : String) (b : Json)
    (h : isUuidString seg = false) :
    handle st .GET ["articles", seg] b = (routeNotFound, st)
    ∧ handle st .DELETE ["articles", seg] b = (routeNotFound, st)
    ∧ routeNotFound.status = 404
    ∧ routeNotFound.status ≠ 400 := by
  refine ⟨?_, ?_, rfl, by decide⟩
  · simp only [handle, h, Bool.false_eq_true, if_false]
  · simp only [handle, h, Bool.false_eq_true, if_false]

/-- C6 witness: the amended claim evaluated at the spec's scenario path
segment `not-a-uuid`. -/
theorem C6_witness :
    handle emptyState .GET ["articles", "not-a-uuid"] Json.null
      = (routeNotFound, emptyState) :=
  (C6_bad_uuid_is_404 emptyState "not-a-uuid" Json.null (by decide)).1

/-! ### Claim C7 -/

/-- C7, as stated, is false: ListArticles on the empty collection is
answered 500 (the handler is an unimplemented stub), not 200 with an empty
sequence. -/
theorem C7_counterexample :
    (handle emptyState .GET ["articles"] Json.null).1.status = 500
    ∧ (handle emptyState .GET ["articles"] Json.null).1.status ≠ 200
    ∧ (handle emptyState .GET ["articles"] Json.null).1.body = none := by
  exact ⟨rfl, by decide, rfl⟩

/-- C7 (amended): ListArticles never succeeds: for every store state it
returns 500 with no body (the handler returns `None`) and never returns the
collection's contents. -/
theorem C7_list_always_500 (st : MongoState) (b : Json) :
    handle st .GET ["articles"] b = ({ status := 500, body := none }, st) := rfl

/-! ### Claim C8 -/

/-- C8, as stated, is false: with one Article stored, DeleteArticle at a
valid UUID is answered 500 — it never completes successfully and removes
nothing (the collection still has its document) — and the subsequent
GetArticle is answered 500, not 404. -/
theorem C8_counterexample :
    (handle (handle emptyState .POST ["articles"] (Json.obj exampleBody)).2
        .DELETE ["articles", sampleUuid] Json.null).1.status = 500
    ∧ (handle (handle emptyState .POST ["articles"] (Json.obj exampleBody)).2
        .DELETE ["articles", sampleUuid] Json.null).2.articles.length = 1
    ∧ (handle (handle (handle emptyState .POST ["articles"] (Json.obj exampleBody)).2
          .DELETE ["articles", sampleUuid] Json.null).2
        .GET ["articles", sampleUuid] Json.null).1.status = 500 := by
  decide

/-- C8 (amended): DeleteArticle never completes successfully: for every
well-formed UUID it returns 500 (the handler is an unimplemented stub),
removes nothing from the store, and the subsequent GetArticle also returns
500, not 404. -/
theorem C8_delete_then_get (st : MongoState) (seg : String) (b b' : Json)
    (h : isUuidString seg = true) :
    handle st .DELETE ["articles", seg] b = ({ status := 500, body := none }, st)
    ∧ handle (handle st .DELETE ["articles", seg] b).2 .GET ["articles", seg] b'
        = ({ status := 500, body := none }, (handle st .DELETE ["articles", seg] b).2) := by
  have hdel : handle st .DELETE ["articles", seg] b = ({ status := 500, body := none }, st) := by
    simp only [handle, h, if_true]
    rfl
  refine ⟨hdel, ?_⟩
  rw [hdel]
  simp only [handle, h, if_true]
  rfl

/-- C8 witness: the amended claim evaluated at a concrete UUID over the
empty store. -/
theorem C8_witness :
    handle emptyState .DELETE ["articles", sampleUuid] Json.null
      = ({ status := 500, body := none }, emptyState) :=
  (C8_delete_then_get emptyState sampleUuid Json.null Json.null (by decide)).1

/-! ### Claim C9 -/

/-- C9, as stated, is false: the stored document and the response body do
not contain exactly the request's fields — both gain a store-assigned `_id`
field the request never carried. -/
theorem C9_counterexample :
    hasKey exampleBody "_id" = false
    ∧ respHasKey (handle emptyState .POST ["articles"] (Json.obj exampleBody)).1 "_id" = true
    ∧ (handle emptyState .POST ["articles"] (Json.obj exampleBody)).2.articles
        = [exampleBody ++ [("_id", Json.oid 0)]] := by
  exact ⟨by decide, by decide, rfl⟩

/-- C9 (amended): for every Create whose object body lacks `_id`, all request
fields are passed through uninterpreted and persisted verbatim — every
non-`_id` lookup on the stored document and on the response body agrees with
the request — but both additionally carry the store-assigned `_id` field. -/
theorem C9_passthrough_plus_id (st : MongoState) (d : Doc)
    (hid : hasKey d "_id" = false) :
    (handle st .POST ["articles"] (Json.obj d)).1.body
      = some (Json.obj (d ++ [("_id", Json.str (oidString st.counter))]))
    ∧ (handle st .POST ["articles"] (Json.obj d)).2.articles
        = st.articles ++ [d ++ [("_id", Json.oid st.counter)]]
    ∧ (∀ k, k ≠ "_id" →
        getVal (d ++ [("_id", Json.str (oidString st.counter))]) k = getVal d k)
    ∧ (∀ k, k ≠ "_id" →
        getVal (d ++ [("_id", Json.oid st.counter)]) k = getVal d k) := by
  have hstep := handle_post_noid st hid
  exact ⟨by rw [hstep], by rw [hstep],
    fun k hk => getVal_append_one_ne _ (fun heq => hk heq.symm),
    fun k hk => getVal_append_one_ne _ (fun heq => hk heq.symm)⟩

/-- C9 witness: the amended claim evaluated on the spec's example request. -/
theorem C9_witness :
    (handle emptyState .POST ["articles"] (Json.obj exampleBody)).1.body
      = some (Json.obj (exampleBody ++ [("_id", Json.str (oidString 0))])) :=
  (C9_passthrough_plus_id emptyState exampleBody (by decide)).1

/-! ### Claim C10 -/

/-- C10: the `<uuid:article_id>` converter guards the single-article rules:
a segment that is not a well-formed UUID matches no rule and is rejected at
routing time with 404 (never 400, and the handler and store are untouched),
while a well-formed UUID segment reaches the corresponding handler. -/
theorem C10_uuid_converter_guard (st : MongoState) (seg : String) (b : Json) :
    (isUuidString seg = false →
      handle st .GET ["articles", seg] b = (routeNotFound, st)
      ∧ handle st .DELETE ["articles", seg] b = (routeNotFound, st)
      ∧ (handle st .GET ["articles", seg] b).1.status = 404
      ∧ (handle st .GET ["articles", seg] b).1.status ≠ 400
      ∧ (handle st .DELETE ["articles", seg] b).1.status ≠ 400)
    ∧ (isUuidString seg = true →
      handle st .GET ["articles", seg] b = (viewToResponse (get_article st seg), st)
      ∧ handle st .DELETE ["articles", seg] b = (viewToResponse (delete_article st seg), st)) := by
  constructor
  · intro h
    have hg : handle st .GET ["articles", seg] b = (routeNotFound, st) := by
      simp only [handle, h, Bool.false_eq_true, if_false]
    have hd : handle st .DELETE ["articles", seg] b = (routeNotFound, st) := by
      simp only [handle, h, Bool.false_eq_true, if_false]
    refine ⟨hg, hd, ?_, ?_, ?_⟩
    · rw [hg]
      simp [routeNotFound]
    · rw [hg]
      simp [routeNotFound]
    · rw [hd]
      simp [routeNotFound]
  · intro h
    constructor
    · simp only [handle, h, if_true]
    · simp only [handle, h, if_true]

/-- C10 witness: the guard evaluated at the non-UUID segment `not-a-uuid`. -/
theorem C10_witness :
    handle emptyState .GET ["articles", "not-a-uuid"] Json.null = (routeNotFound, emptyState)
    ∧ handle emptyState .DELETE ["articles", "not-a-uuid"] Json.null = (routeNotFound, emptyState)
    ∧ (handle emptyState .GET ["articles", "not-a-uuid"] Json.null).1.status = 404
    ∧ (handle emptyState .GET ["articles", "not-a-uuid"] Json.null).1.status ≠ 400
    ∧ (handle emptyState .DELETE ["articles", "not-a-uuid"] Json.null).1.status ≠ 400 :=
  (C10_uuid_converter_guard emptyState "not-a-uuid" Json.null).1 (by decide)
